import Mathlib

/-!
Shallow embedding of the blog application in src/app.py.

The persistence layer (three tables: users, blog_posts, comments) is modelled
as lists of records inside a DBState.  A request handler is a function from
the database state (plus the session and the validated form data) to an
HResult: the HTTP response, the flash messages emitted, the state after the
commit, and the user id passed to login_user when a session is established.

Library collaborators are modelled by their contracts:
- werkzeug password hashing (generate_password_hash with pbkdf2 and a salt,
  check_password_hash) is a HashScheme parameter: a generation function and a
  verification predicate;
- flask_login resolves the session cookie through the user_loader callback
  load_user, which in this application calls db.get_or_404 and therefore
  aborts the request with 404 when the stored id matches no user;
- SQLAlchemy commit semantics follow the declared schema: User.email and
  BlogPost.title carry unique constraints, all foreign-key columns are
  declared through non-Optional Mapped annotations and are therefore NOT
  NULL, and the BlogPost.comments relationship is declared without any
  delete cascade, so deleting a post makes the ORM null out the post_id of
  each dependent comment, which the NOT NULL constraint rejects; a violated
  constraint surfaces as an unhandled IntegrityError, that is a generic
  server error.
-/

namespace BlogApp

/-- Model of the users table of app.py: id primary key, unique email,
stored password hash, display name. -/
structure User where
  id : Nat
  email : String
  password : String
  name : String
  deriving Repr, DecidableEq

/-- Model of the blog_posts table of app.py: id primary key, author
foreign key, unique title, subtitle, date stored as a formatted string,
body and image URL. -/
structure BlogPost where
  id : Nat
  author_id : Nat
  title : String
  subtitle : String
  date : String
  body : String
  img_url : String
  deriving Repr, DecidableEq

/-- Model of the comments table of app.py: id primary key, text, author
foreign key and parent-post foreign key, both NOT NULL. -/
structure Comment where
  id : Nat
  text : String
  author_id : Nat
  post_id : Nat
  deriving Repr, DecidableEq

/-- The relational store: the three tables. -/
structure DBState where
  users : List User
  posts : List BlogPost
  comments : List Comment
  deriving Repr, DecidableEq

/-- The response of a handler: a rendered template, a redirect to a named
endpoint, an abort with an HTTP status code, or an unhandled exception
surfacing as a generic server error. -/
inductive Response where
  | page (template : String)
  | redirectTo (endpoint : String)
  | httpAbort (code : Nat)
  | serverError
  deriving Repr, DecidableEq

/-- The observable outcome of one request: response, flash messages pushed
during the request, the database state after the request, and the id handed
to login_user when the handler establishes a session (none otherwise). -/
structure HResult where
  response : Response
  flashes : List String
  state : DBState
  loginAs : Option Nat
  deriving Repr, DecidableEq

/-- Contract of the werkzeug password helpers used by app.py: gen models
generate_password_hash (pbkdf2 with sha256, salt length 8) and check models
check_password_hash applied to a stored hash and a candidate password. -/
structure HashScheme where
  gen : String → String
  check : String → String → Bool

/-- Autoincrement primary key of the store: one more than the largest id in
use, as the relational backend assigns it on INSERT. -/
def nextId (ids : List Nat) : Nat := ids.foldr max 0 + 1

def DBState.nextUserId (s : DBState) : Nat := nextId (s.users.map User.id)

def DBState.nextPostId (s : DBState) : Nat := nextId (s.posts.map BlogPost.id)

def DBState.nextCommentId (s : DBState) : Nat := nextId (s.comments.map Comment.id)

/-- The SELECT of register: some user already has this email. -/
def emailTaken (s : DBState) (email : String) : Bool :=
  s.users.any (fun u => u.email == email)

/-- The unique constraint on BlogPost.title: some post already has this
title. -/
def titleTaken (s : DBState) (title : String) : Bool :=
  s.posts.any (fun p => p.title == title)

def findUserByEmail (s : DBState) (email : String) : Option User :=
  s.users.find? (fun u => u.email == email)

def findUserById (s : DBState) (uid : Nat) : Option User :=
  s.users.find? (fun u => u.id == uid)

def findPostById (s : DBState) (pid : Nat) : Option BlogPost :=
  s.posts.find? (fun p => p.id == pid)

/-- Model of the user_loader of app.py, lines 84 to 86: load_user calls
db.get_or_404, so a session id that matches no user aborts the request
with HTTP 404 instead of yielding an anonymous user. -/
def load_user (s : DBState) (uid : Nat) : Except Nat User :=
  match findUserById s uid with
  | some u => .ok u
  | none => .error 404

/-- Model of the admin_only decorator of app.py, lines 88 to 94, combined
with the session resolution of flask_login: with no session cookie
current_user is anonymous and the guard aborts 403; with a session whose id
matches no user, load_user aborts 404 before the guard decides; with a
resolved user the guard aborts 403 unless the id equals 1, in which case
the wrapped handler runs. -/
def admin_only (handler : User → DBState → HResult) (sess : Option Nat)
    (s : DBState) : HResult :=
  match sess with
  | none => { response := .httpAbort 403, flashes := [], state := s, loginAs := none }
  | some uid =>
    match findUserById s uid with
    | none => { response := .httpAbort 404, flashes := [], state := s, loginAs := none }
    | some u =>
      if u.id == 1 then handler u s
      else { response := .httpAbort 403, flashes := [], state := s, loginAs := none }

/-- Model of the register route of app.py, lines 97 to 111, on a validated
submission: an existing account with the same email flashes a warning and
redirects to login without touching the store; otherwise the password is
hashed, the user is inserted, login_user establishes the session and the
response redirects to the index. -/
def register (scheme : HashScheme) (s : DBState)
    (email password name : String) : HResult :=
  if emailTaken s email then
    { response := .redirectTo "login"
      flashes := ["You\x27ve already signed up with that email, log in instead!"]
      state := s
      loginAs := none }
  else
    let uid := s.nextUserId
    let newUser : User :=
      { id := uid, email := email, password := scheme.gen password, name := name }
    { response := .redirectTo "get_all_posts"
      flashes := []
      state := { s with users := s.users ++ [newUser] }
      loginAs := some uid }

/-- Model of the login route of app.py, lines 113 to 123, on a validated
submission: an absent email or a failed hash check flashes the invalid
credentials message and redirects back to login; otherwise login_user
establishes the session and the response redirects to the index. -/
def login (scheme : HashScheme) (s : DBState)
    (email password : String) : HResult :=
  match findUserByEmail s email with
  | none =>
    { response := .redirectTo "login"
      flashes := ["Invalid credentials, please try again."]
      state := s
      loginAs := none }
  | some user =>
    if scheme.check user.password password then
      { response := .redirectTo "get_all_posts"
        flashes := []
        state := s
        loginAs := some user.id }
    else
      { response := .redirectTo "login"
        flashes := ["Invalid credentials, please try again."]
        state := s
        loginAs := none }

/-- Model of the index route get_all_posts of app.py, lines 149 to 164:
the SELECT over blog_posts is wrapped in a bare try and except, so an
unreachable store degrades to the empty list handed to the template. -/
def get_all_posts (store : Except Unit DBState) : List BlogPost :=
  match store with
  | .ok s => s.posts
  | .error _ => []

/-- The validated fields of CreatePostForm as used by the new-post and
edit-post routes. -/
structure PostForm where
  title : String
  subtitle : String
  body : String
  img_url : String
  deriving Repr, DecidableEq

/-- Full month name as produced by strftime with the B directive. -/
def monthName : Nat → String
  | 1 => "January"
  | 2 => "February"
  | 3 => "March"
  | 4 => "April"
  | 5 => "May"
  | 6 => "June"
  | 7 => "July"
  | 8 => "August"
  | 9 => "September"
  | 10 => "October"
  | 11 => "November"
  | 12 => "December"
  | _ => ""

/-- Zero-padded two-digit day as produced by strftime with the d
directive. -/
def twoDigits (n : Nat) : String :=
  if n < 10 then "0" ++ Nat.repr n else Nat.repr n

/-- A calendar date as held by date.today(). -/
structure Date where
  year : Nat
  month : Nat
  day : Nat
  deriving Repr, DecidableEq

/-- Model of strftime applied to the format string of app.py line 185:
full month name, space, two-digit day, comma, space, year. -/
def strftime_B_d_Y (d : Date) : String :=
  monthName d.month ++ " " ++ twoDigits d.day ++ ", " ++ Nat.repr d.year

/-- Model of the body of add_new_post of app.py, lines 180 to 189, on a
validated submission, after the admin_only guard let user u through: the
INSERT of a post whose title is already taken violates the unique
constraint on BlogPost.title, an unhandled IntegrityError, so a generic
server error and no change; otherwise the new post is stored with the
current date formatted by strftime and the logged-in user as author, and
the response redirects to the index. -/
def add_new_post (today : Date) (form : PostForm) (u : User)
    (s : DBState) : HResult :=
  if titleTaken s form.title then
    { response := .serverError, flashes := [], state := s, loginAs := none }
  else
    let p : BlogPost :=
      { id := s.nextPostId
        author_id := u.id
        title := form.title
        subtitle := form.subtitle
        date := strftime_B_d_Y today
        body := form.body
        img_url := form.img_url }
    { response := .redirectTo "get_all_posts"
      flashes := []
      state := { s with posts := s.posts ++ [p] }
      loginAs := none }

/-- The simultaneous assignment of app.py line 197: overwrite title,
subtitle, img_url and body of a post from the submitted form, keeping id,
author and date. -/
def applyEdit (form : PostForm) (q : BlogPost) : BlogPost :=
  { q with
    title := form.title
    subtitle := form.subtitle
    img_url := form.img_url
    body := form.body }

/-- Model of the body of edit_post of app.py, lines 191 to 200, on a
validated submission, after the admin_only guard let a user through:
db.get_or_404 aborts 404 when the post is absent; the UPDATE violates the
unique constraint on BlogPost.title when a different post already has the
submitted title, an unhandled IntegrityError, so a generic server error
and no change; otherwise exactly title, subtitle, img_url and body of the
addressed post are overwritten in place and the response redirects to the
post page. -/
def edit_post (pid : Nat) (form : PostForm) (_u : User)
    (s : DBState) : HResult :=
  match findPostById s pid with
  | none => { response := .httpAbort 404, flashes := [], state := s, loginAs := none }
  | some _post =>
    if s.posts.any (fun p => p.id != pid && p.title == form.title) then
      { response := .serverError, flashes := [], state := s, loginAs := none }
    else
      { response := .redirectTo "show_post"
        flashes := []
        state := { s with
          posts := s.posts.map (fun p => if p.id == pid then applyEdit form p else p) }
        loginAs := none }

/-- Model of the body of delete_post of app.py, lines 202 to 208, after
the admin_only guard let a user through: db.get_or_404 aborts 404 when the
post is absent; the BlogPost.comments relationship declares no delete
cascade, so at flush the ORM nulls the post_id of every dependent comment,
and since Comment.post_id is declared NOT NULL the store rejects the
UPDATE whenever such a comment exists: an unhandled IntegrityError, so a
generic server error and no change; only a post without comments is
actually deleted. -/
def delete_post (pid : Nat) (_u : User) (s : DBState) : HResult :=
  match findPostById s pid with
  | none => { response := .httpAbort 404, flashes := [], state := s, loginAs := none }
  | some _post =>
    if s.comments.any (fun c => c.post_id == pid) then
      { response := .serverError, flashes := [], state := s, loginAs := none }
    else
      { response := .redirectTo "get_all_posts"
        flashes := []
        state := { s with posts := s.posts.filter (fun p => p.id != pid) }
        loginAs := none }

/-- Model of the show_post route of app.py, lines 167 to 178:
db.get_or_404 aborts 404 when the post is absent; commentText carries the
validated comment field of a POST, none standing for a GET or a
non-validating form.  On a comment submission an anonymous requester is
flashed and redirected to login with nothing persisted; a stale session is
aborted 404 by load_user when current_user is touched; an authenticated
user has exactly one comment appended, authored by that user and attached
to the requested post. -/
def show_post (pid : Nat) (commentText : Option String) (sess : Option Nat)
    (s : DBState) : HResult :=
  match findPostById s pid with
  | none => { response := .httpAbort 404, flashes := [], state := s, loginAs := none }
  | some _post =>
    match commentText with
    | none => { response := .page "post.html", flashes := [], state := s, loginAs := none }
    | some text =>
      match sess with
      | none =>
        { response := .redirectTo "login"
          flashes := ["You need to login or register to comment."]
          state := s
          loginAs := none }
      | some uid =>
        match findUserById s uid with
        | none => { response := .httpAbort 404, flashes := [], state := s, loginAs := none }
        | some u =>
          let c : Comment :=
            { id := s.nextCommentId, text := text, author_id := u.id, post_id := pid }
          { response := .page "post.html"
            flashes := []
            state := { s with comments := s.comments ++ [c] }
            loginAs := none }

/-- The new-post endpoint: add_new_post wrapped by admin_only, app.py
lines 180 to 182. -/
def new_post_route (today : Date) (form : PostForm) (sess : Option Nat)
    (s : DBState) : HResult :=
  admin_only (add_new_post today form) sess s

/-- The edit-post endpoint: edit_post wrapped by admin_only, app.py lines
191 to 193. -/
def edit_post_route (pid : Nat) (form : PostForm) (sess : Option Nat)
    (s : DBState) : HResult :=
  admin_only (edit_post pid form) sess s

/-- The delete endpoint: delete_post wrapped by admin_only, app.py lines
202 to 204. -/
def delete_post_route (pid : Nat) (sess : Option Nat) (s : DBState) : HResult :=
  admin_only (delete_post pid) sess s

/-- Well-formedness used where the unique constraint on users.email is
needed: pairwise distinct emails, as the store enforces. -/
def DBState.emailsUnique (s : DBState) : Prop :=
  s.users.Pairwise (fun a b => a.email ≠ b.email)

instance (s : DBState) : Decidable s.emailsUnique :=
  List.instDecidablePairwise s.users

/-! Concrete fixtures used to evaluate the handlers at explicit inputs. -/

/-- A concrete hash scheme satisfying the werkzeug contract, used when the
theorems are evaluated at concrete inputs. -/
def idScheme : HashScheme :=
  { gen := fun p => "hash:" ++ p
    check := fun stored p => stored == "hash:" ++ p }

def adminUser : User :=
  { id := 1, email := "admin@example.com", password := "hash:pw1", name := "Admin" }

def bobUser : User :=
  { id := 2, email := "bob@example.com", password := "hash:pw2", name := "Bob" }

def post1 : BlogPost :=
  { id := 1, author_id := 1, title := "First", subtitle := "sub1"
    date := "January 01, 2026", body := "body1", img_url := "url1" }

def post2 : BlogPost :=
  { id := 2, author_id := 1, title := "Second", subtitle := "sub2"
    date := "February 02, 2026", body := "body2", img_url := "url2" }

def comment1 : Comment :=
  { id := 1, text := "nice post", author_id := 2, post_id := 1 }

/-- A populated store: the admin, one reader, two posts, one comment on
the first post. -/
def baseState : DBState :=
  { users := [adminUser, bobUser], posts := [post1, post2], comments := [comment1] }

def sampleDate : Date := { year := 2026, month := 10, day := 12 }

def newForm : PostForm :=
  { title := "Third", subtitle := "sub3", body := "body3", img_url := "url3" }

/-- A form whose title collides with post1. -/
def dupForm : PostForm :=
  { title := "First", subtitle := "subx", body := "bodyx", img_url := "urlx" }

def editForm : PostForm :=
  { title := "Second v2", subtitle := "sub2b", body := "body2b", img_url := "url2b" }

/-! Theorems settling the claims. -/

/-- C1: on the create-post, edit-post and delete-post endpoints, an
anonymous requester, and a requester resolved to a user whose id differs
from 1, are aborted with HTTP 403 with the store untouched and no session
established; a requester resolved to the user with id 1 reaches the
wrapped handler. -/
theorem admin_routes_guard (today : Date) (form : PostForm) (pid : Nat)
    (sess : Option Nat) (s : DBState) :
    (sess = none →
      new_post_route today form sess s =
        { response := .httpAbort 403, flashes := [], state := s, loginAs := none } ∧
      edit_post_route pid form sess s =
        { response := .httpAbort 403, flashes := [], state := s, loginAs := none } ∧
      delete_post_route pid sess s =
        { response := .httpAbort 403, flashes := [], state := s, loginAs := none }) ∧
    (∀ uid u, sess = some uid → findUserById s uid = some u →
      (u.id ≠ 1 →
        new_post_route today form sess s =
          { response := .httpAbort 403, flashes := [], state := s, loginAs := none } ∧
        edit_post_route pid form sess s =
          { response := .httpAbort 403, flashes := [], state := s, loginAs := none } ∧
        delete_post_route pid sess s =
          { response := .httpAbort 403, flashes := [], state := s, loginAs := none }) ∧
      (u.id = 1 →
        new_post_route today form sess s = add_new_post today form u s ∧
        edit_post_route pid form sess s = edit_post pid form u s ∧
        delete_post_route pid sess s = delete_post pid u s)) := by
  constructor
  · rintro rfl
    exact ⟨rfl, rfl, rfl⟩
  · rintro uid u rfl hu
    constructor
    · intro hne
      have hb : (u.id == 1) = false := by simpa using hne
      simp [new_post_route, edit_post_route, delete_post_route, admin_only, hu, hb]
    · intro heq
      have hb : (u.id == 1) = true := by simpa using heq
      simp [new_post_route, edit_post_route, delete_post_route, admin_only, hu, hb]

/-- Witness for C1: the non-admin user bobUser is refused with 403 on the
create endpoint, and the admin reaches the create handler. -/
theorem admin_routes_guard_witness :
    (new_post_route sampleDate newForm (some 2) baseState).response = Response.httpAbort 403 ∧
    new_post_route sampleDate newForm (some 1) baseState =
      add_new_post sampleDate newForm adminUser baseState := by
  constructor
  · have h :=
      ((admin_routes_guard sampleDate newForm 1 (some 2) baseState).2 2 bobUser rfl
        (by decide)).1 (by decide)
    rw [h.1]
  · exact
      (((admin_routes_guard sampleDate newForm 1 (some 1) baseState).2 1 adminUser rfl
        (by decide)).2 (by decide)).1

/-- C10: a session whose stored user id matches no user in the store is
aborted by load_user with HTTP 404, so every request carrying such a stale
session fails with NotFound rather than running as anonymous: shown on the
three admin endpoints and on the comment submission path. -/
theorem load_user_stale (s : DBState) (uid : Nat) (today : Date)
    (form : PostForm) (pid : Nat) (text : String)
    (h : findUserById s uid = none) :
    load_user s uid = .error 404 ∧
    new_post_route today form (some uid) s =
      { response := .httpAbort 404, flashes := [], state := s, loginAs := none } ∧
    edit_post_route pid form (some uid) s =
      { response := .httpAbort 404, flashes := [], state := s, loginAs := none } ∧
    delete_post_route pid (some uid) s =
      { response := .httpAbort 404, flashes := [], state := s, loginAs := none } ∧
    (∀ p, findPostById s pid = some p →
      show_post pid (some text) (some uid) s =
        { response := .httpAbort 404, flashes := [], state := s, loginAs := none }) := by
  refine ⟨?_, ?_, ?_, ?_, ?_⟩
  · simp [load_user, h]
  · simp [new_post_route, admin_only, h]
  · simp [edit_post_route, admin_only, h]
  · simp [delete_post_route, admin_only, h]
  · intro p hp
    simp [show_post, hp, h]

/-- Witness for C10: no user of baseState has id 7, so a session holding 7
gets 404 from load_user and on the delete endpoint. -/
theorem load_user_stale_witness :
    load_user baseState 7 = .error 404 ∧
    (delete_post_route 1 (some 7) baseState).response = Response.httpAbort 404 := by
  have h := load_user_stale baseState 7 sampleDate newForm 1 "hi" (by decide)
  refine ⟨h.1, ?_⟩
  rw [h.2.2.2.1]

/-- C8: the index handler returns every post of a reachable store, and
degrades to the empty list when the read of the store fails. -/
theorem get_all_posts_spec (s : DBState) :
    get_all_posts (.ok s) = s.posts ∧ get_all_posts (.error ()) = [] :=
  ⟨rfl, rfl⟩

/-- C4: registering with an email already in the store flashes the warning
and redirects to login with the store untouched and no session; a fresh
email inserts exactly one user whose stored password is the hash of the
submitted one, establishes the session as the new user, and redirects to
the index. -/
theorem register_spec (scheme : HashScheme) (s : DBState)
    (email password name : String) :
    (emailTaken s email = true →
      register scheme s email password name =
        { response := .redirectTo "login"
          flashes := ["You\x27ve already signed up with that email, log in instead!"]
          state := s
          loginAs := none }) ∧
    (emailTaken s email = false →
      (register scheme s email password name).state.users =
        s.users ++ [{ id := s.nextUserId, email := email
                      password := scheme.gen password, name := name }] ∧
      (register scheme s email password name).state.posts = s.posts ∧
      (register scheme s email password name).state.comments = s.comments ∧
      (register scheme s email password name).loginAs = some s.nextUserId ∧
      (register scheme s email password name).response = .redirectTo "get_all_posts" ∧
      (register scheme s email password name).flashes = []) := by
  constructor
  · intro h
    simp [register, h]
  · intro h
    simp [register, h]

/-- Witness for C4: re-registering the email of bobUser leaves baseState
unchanged, while a fresh email logs the new user in with the next id 3. -/
theorem register_spec_witness :
    (register idScheme baseState "bob@example.com" "pw2" "Bobby").state = baseState ∧
    (register idScheme baseState "carol@example.com" "pw3" "Carol").loginAs = some 3 := by
  constructor
  · have h := (register_spec idScheme baseState "bob@example.com" "pw2" "Bobby").1 (by decide)
    rw [h]
  · have h := (register_spec idScheme baseState "carol@example.com" "pw3" "Carol").2 (by decide)
    have h4 := h.2.2.2.1
    rw [h4]
    decide

/-- C6: a comment submission on an existing post by an anonymous requester
persists nothing, flashes the login notice and redirects to the login
page; a requester with a session resolved to user u appends exactly one
comment, authored by u and attached to the requested post, with users and
posts untouched. -/
theorem show_post_comment_spec (s : DBState) (pid : Nat) (text : String)
    (sess : Option Nat) (p : BlogPost) (hp : findPostById s pid = some p) :
    (sess = none →
      show_post pid (some text) sess s =
        { response := .redirectTo "login"
          flashes := ["You need to login or register to comment."]
          state := s
          loginAs := none }) ∧
    (∀ uid u, sess = some uid → findUserById s uid = some u →
      (show_post pid (some text) sess s).state.comments =
        s.comments ++ [{ id := s.nextCommentId, text := text
                         author_id := u.id, post_id := pid }] ∧
      (show_post pid (some text) sess s).state.users = s.users ∧
      (show_post pid (some text) sess s).state.posts = s.posts ∧
      (show_post pid (some text) sess s).response = .page "post.html" ∧
      (show_post pid (some text) sess s).flashes = []) := by
  constructor
  · rintro rfl
    simp [show_post, hp]
  · rintro uid u rfl hu
    simp [show_post, hp, hu]

/-- Witness for C6: an anonymous comment on post 1 of baseState changes
nothing; the same comment by bobUser appends one comment with the fresh
id 2, written by user 2 on post 1. -/
theorem show_post_comment_spec_witness :
    (show_post 1 (some "hello") none baseState).state = baseState ∧
    (show_post 1 (some "hello") (some 2) baseState).state.comments =
      baseState.comments ++
        [{ id := 2, text := "hello", author_id := 2, post_id := 1 }] := by
  constructor
  · have h := (show_post_comment_spec baseState 1 "hello" none post1 (by decide)).1 rfl
    rw [h]
  · have h :=
      ((show_post_comment_spec baseState 1 "hello" (some 2) post1 (by decide)).2
        2 bobUser rfl (by decide)).1
    rw [h]
    decide

/-- With pairwise distinct emails, two stored users sharing an email are
the same row. -/
theorem user_eq_of_email_eq (s : DBState) (hWF : s.emailsUnique) {u v : User}
    (hu : u ∈ s.users) (hv : v ∈ s.users) (he : u.email = v.email) : u = v := by
  by_contra hne
  exact (List.Pairwise.forall (fun a b h => fun hba => h hba.symm) hWF hu hv hne) he

/-- A hit of the SELECT by email belongs to the store and has the searched
email. -/
theorem findUserByEmail_sound (s : DBState) (email : String) (u : User)
    (h : findUserByEmail s email = some u) : u ∈ s.users ∧ u.email = email := by
  refine ⟨List.mem_of_find?_eq_some h, ?_⟩
  have := List.find?_some h
  simpa using this

/-- C5: login never changes the store; it hands a user id to login_user
exactly when some stored user carries the submitted email and the
submitted password verifies against the stored hash of that user (emails being
unique in the store); on failure it flashes the invalid credentials
message and redirects back to login; on success the session is that of the
matching user. -/
theorem login_spec (scheme : HashScheme) (s : DBState) (email password : String)
    (hWF : s.emailsUnique) :
    (login scheme s email password).state = s ∧
    ((login scheme s email password).loginAs ≠ none ↔
      ∃ u ∈ s.users, u.email = email ∧ scheme.check u.password password = true) ∧
    ((login scheme s email password).loginAs = none →
      (login scheme s email password).response = .redirectTo "login" ∧
      (login scheme s email password).flashes = ["Invalid credentials, please try again."]) ∧
    (∀ u ∈ s.users, u.email = email → scheme.check u.password password = true →
      (login scheme s email password).loginAs = some u.id) := by
  cases hfind : findUserByEmail s email with
  | none =>
    have habs : ∀ u ∈ s.users, u.email ≠ email := by
      intro u hu he
      have := List.find?_eq_none.mp hfind u hu
      simp [he] at this
    refine ⟨?_, ?_, ?_, ?_⟩
    · simp [login, hfind]
    · constructor
      · intro h
        exact absurd (by simp [login, hfind]) h
      · rintro ⟨u, hu, he, _⟩
        exact absurd he (habs u hu)
    · intro _
      simp [login, hfind]
    · intro u hu he _
      exact absurd he (habs u hu)
  | some user =>
    obtain ⟨hmem, hemail⟩ := findUserByEmail_sound s email user hfind
    by_cases hc : scheme.check user.password password = true
    · refine ⟨?_, ?_, ?_, ?_⟩
      · simp [login, hfind, hc]
      · constructor
        · intro _
          exact ⟨user, hmem, hemail, hc⟩
        · intro _
          simp [login, hfind, hc]
      · intro h
        rw [show (login scheme s email password).loginAs = some user.id by
          simp [login, hfind, hc]] at h
        cases h
      · intro u hu he _
        have : u = user := user_eq_of_email_eq s hWF hu hmem (he.trans hemail.symm)
        subst this
        simp [login, hfind, hc]
    · have hcf : scheme.check user.password password = false := by
        simpa using hc
      refine ⟨?_, ?_, ?_, ?_⟩
      · simp [login, hfind, hcf]
      · constructor
        · intro h
          exact absurd (by simp [login, hfind, hcf]) h
        · rintro ⟨u, hu, he, hcu⟩
          have : u = user := user_eq_of_email_eq s hWF hu hmem (he.trans hemail.symm)
          subst this
          rw [hcu] at hcf
          cases hcf
      · intro _
        simp [login, hfind, hcf]
      · intro u hu he hcu
        have : u = user := user_eq_of_email_eq s hWF hu hmem (he.trans hemail.symm)
        subst this
        rw [hcu] at hcf
        cases hcf

/-- Witness for C5: against baseState, the wrong password for bobUser
establishes no session and flashes the invalid credentials message, while
the right password logs in as user 2. -/
theorem login_spec_witness :
    (login idScheme baseState "bob@example.com" "wrong").loginAs = none ∧
    (login idScheme baseState "bob@example.com" "wrong").flashes =
      ["Invalid credentials, please try again."] ∧
    (login idScheme baseState "bob@example.com" "pw2").loginAs = some 2 := by
  have hfail := login_spec idScheme baseState "bob@example.com" "wrong" (by decide)
  have hok := login_spec idScheme baseState "bob@example.com" "pw2" (by decide)
  have hnone : (login idScheme baseState "bob@example.com" "wrong").loginAs = none := by
    have hno : ¬∃ u ∈ baseState.users,
        u.email = "bob@example.com" ∧ idScheme.check u.password "wrong" = true := by
      decide
    exact not_ne_iff.mp (fun hne => hno (hfail.2.1.mp hne))
  refine ⟨hnone, (hfail.2.2.1 hnone).2, ?_⟩
  exact hok.2.2.2 bobUser (by decide) (by decide) (by decide)

/-- Counterexample to C2 as stated: in baseState the comment with id 1
references post 1, yet the admin request to delete post 1 raises an
unhandled constraint error and leaves the store exactly as it was: the
post is not removed and the comment still references it, because the
comments relationship declares no delete cascade and Comment.post_id is
NOT NULL. -/
theorem delete_post_cascade_cex :
    baseState.comments.any (fun c => c.post_id == 1) = true ∧
    (delete_post_route 1 (some 1) baseState).response = Response.serverError ∧
    (delete_post_route 1 (some 1) baseState).state = baseState := by
  decide

/-- C2 amended: deleting an existing post that still has comments fails
with an unhandled persistence error and changes nothing; only a post with
no comments referencing it is removed, the comments table being untouched
either way. -/
theorem delete_post_spec (pid : Nat) (u : User) (s : DBState) (p : BlogPost)
    (hp : findPostById s pid = some p) :
    (s.comments.any (fun c => c.post_id == pid) = true →
      delete_post pid u s =
        { response := .serverError, flashes := [], state := s, loginAs := none }) ∧
    (s.comments.any (fun c => c.post_id == pid) = false →
      delete_post pid u s =
        { response := .redirectTo "get_all_posts"
          flashes := []
          state := { s with posts := s.posts.filter (fun q => q.id != pid) }
          loginAs := none }) := by
  constructor
  · intro h
    simp [delete_post, hp, h]
  · intro h
    simp [delete_post, hp, h]

/-- Witness for C2 amended: deleting post 1 of baseState, which has a
comment, errors out, while deleting the comment-free post 2 removes
exactly that post. -/
theorem delete_post_spec_witness :
    (delete_post 1 adminUser baseState).response = Response.serverError ∧
    (delete_post 2 adminUser baseState).state.posts = [post1] := by
  constructor
  · rw [(delete_post_spec 1 adminUser baseState post1 (by decide)).1 (by decide)]
  · rw [(delete_post_spec 2 adminUser baseState post2 (by decide)).2 (by decide)]
    decide

/-- Counterexample to C3 as stated: submitting a new post whose title
collides with post1 of baseState does not flash anything and does not
redirect: the INSERT violates the unique title constraint and the request
dies with a generic server error; the store is unchanged. -/
theorem add_new_post_dup_title_cex :
    titleTaken baseState dupForm.title = true ∧
    (new_post_route sampleDate dupForm (some 1) baseState).response = Response.serverError ∧
    (new_post_route sampleDate dupForm (some 1) baseState).flashes = [] ∧
    (new_post_route sampleDate dupForm (some 1) baseState).state = baseState := by
  decide

/-- C3 amended: a create-post submission whose title equals the title of
an existing post fails with an unhandled persistence error, a generic
server error with no flash message and no redirect, and no new post is
created. -/
theorem add_new_post_dup_title_spec (today : Date) (form : PostForm) (u : User)
    (s : DBState) (h : titleTaken s form.title = true) :
    add_new_post today form u s =
      { response := .serverError, flashes := [], state := s, loginAs := none } := by
  simp [add_new_post, h]

/-- Witness for C3 amended: the colliding submission on baseState leaves
the store as it was. -/
theorem add_new_post_dup_title_spec_witness :
    (add_new_post sampleDate dupForm adminUser baseState).state = baseState := by
  rw [add_new_post_dup_title_spec sampleDate dupForm adminUser baseState (by decide)]

/-- Counterexample to C7 as stated: editing post 2 of baseState with a
submission whose title equals the title of post 1 does not overwrite
anything: the UPDATE violates the unique title constraint, the request
dies with a generic server error and the store is unchanged, post 2
keeping its old fields. -/
theorem edit_post_collide_cex :
    (edit_post_route 2 dupForm (some 1) baseState).response = Response.serverError ∧
    (edit_post_route 2 dupForm (some 1) baseState).state = baseState ∧
    findPostById (edit_post_route 2 dupForm (some 1) baseState).state 2 = some post2 := by
  decide

/-- C7 amended: provided the submitted title does not equal the title of
any other existing post, edit_post overwrites exactly the title, subtitle,
image URL and body of the addressed post in place, keeps its date and
author ids, and leaves every other post, the users and the comments
unchanged. -/
theorem edit_post_spec (pid : Nat) (form : PostForm) (u : User) (s : DBState)
    (p : BlogPost) (hp : findPostById s pid = some p)
    (hT : s.posts.any (fun q => q.id != pid && q.title == form.title) = false) :
    (edit_post pid form u s).state.posts =
      s.posts.map (fun q => if q.id == pid then applyEdit form q else q) ∧
    (edit_post pid form u s).state.users = s.users ∧
    (edit_post pid form u s).state.comments = s.comments ∧
    (edit_post pid form u s).response = .redirectTo "show_post" ∧
    (∀ q ∈ s.posts, q.id ≠ pid → q ∈ (edit_post pid form u s).state.posts) ∧
    (∀ q ∈ s.posts, q.id = pid →
      applyEdit form q ∈ (edit_post pid form u s).state.posts ∧
      (applyEdit form q).date = q.date ∧
      (applyEdit form q).author_id = q.author_id ∧
      (applyEdit form q).id = q.id ∧
      (applyEdit form q).title = form.title ∧
      (applyEdit form q).subtitle = form.subtitle ∧
      (applyEdit form q).img_url = form.img_url ∧
      (applyEdit form q).body = form.body) := by
  have hposts : (edit_post pid form u s).state.posts =
      s.posts.map (fun q => if q.id == pid then applyEdit form q else q) := by
    simp [edit_post, hp, hT]
  refine ⟨hposts, ?_, ?_, ?_, ?_, ?_⟩
  · simp [edit_post, hp, hT]
  · simp [edit_post, hp, hT]
  · simp [edit_post, hp, hT]
  · intro q hq hne
    rw [hposts]
    have heq : (if q.id == pid then applyEdit form q else q) = q := by
      simp [hne]
    rw [← heq]
    exact List.mem_map_of_mem _ hq
  · intro q hq heq
    refine ⟨?_, rfl, rfl, rfl, rfl, rfl, rfl, rfl⟩
    rw [hposts]
    have hq2 : (if q.id == pid then applyEdit form q else q) = applyEdit form q := by
      simp [heq]
    rw [← hq2]
    exact List.mem_map_of_mem _ hq

/-- Witness for C7 amended: editing post 2 of baseState with a fresh
title rewrites exactly post 2 and keeps post 1, the users and the comment;
the date and author of post 2 survive. -/
theorem edit_post_spec_witness :
    (edit_post 2 editForm adminUser baseState).state.posts =
      [post1, applyEdit editForm post2] ∧
    (edit_post 2 editForm adminUser baseState).state.comments = baseState.comments ∧
    (applyEdit editForm post2).date = post2.date ∧
    (applyEdit editForm post2).author_id = post2.author_id := by
  have h := edit_post_spec 2 editForm adminUser baseState post2 (by decide) (by decide)
  have h6 := h.2.2.2.2.2 post2 (by decide) (by decide)
  refine ⟨?_, h.2.2.1, h6.2.1, h6.2.2.1⟩
  rw [h.1]
  decide

/-- Length of the digit list produced by the core numeral printer: one
digit per decimal position, provided the fuel exceeds the number. -/
theorem toDigitsCore_length_eq (fuel : Nat) :
    ∀ (n : Nat) (l : List Char), n < fuel →
      (Nat.toDigitsCore 10 fuel n l).length = Nat.log 10 n + 1 + l.length := by
  induction fuel with
  | zero =>
    intro n l h
    exact absurd h (Nat.not_lt_zero n)
  | succ f ih =>
    intro n l h
    simp only [Nat.toDigitsCore]
    by_cases h0 : n / 10 = 0
    · rw [if_pos h0]
      have hn10 : n < 10 := by omega
      have hlog : Nat.log 10 n = 0 := Nat.log_eq_zero_iff.mpr (Or.inl hn10)
      simp [hlog]
      omega
    · rw [if_neg h0]
      have hge : 10 ≤ n := by omega
      have hlt : n / 10 < f := by omega
      rw [ih (n / 10) (Nat.digitChar (n % 10) :: l) hlt]
      have hlog : Nat.log 10 (n / 10) = Nat.log 10 n - 1 := Nat.log_div_base 10 n
      have hpos : 0 < Nat.log 10 n := Nat.log_pos (by omega) hge
      simp only [List.length_cons]
      omega

/-- The decimal numeral of n has one character per decimal position. -/
theorem repr_length_eq (n : Nat) : (Nat.repr n).length = Nat.log 10 n + 1 := by
  have h := toDigitsCore_length_eq (n + 1) n [] (Nat.lt_succ_self n)
  have hconv : (Nat.repr n).length = (Nat.toDigitsCore 10 (n + 1) n []).length := by
    simp only [Nat.repr, Nat.toDigits, List.length_asString]
  rw [hconv, h]
  simp

/-- Years between 1000 and 9999 print as four characters. -/
theorem repr_length_four (y : Nat) (h1 : 1000 ≤ y) (h2 : y ≤ 9999) :
    (Nat.repr y).length = 4 := by
  rw [repr_length_eq]
  have e3 : (10 : Nat) ^ 3 = 1000 := by norm_num
  have e4 : (10 : Nat) ^ 4 = 10000 := by norm_num
  have hlog : Nat.log 10 y = 3 :=
    Nat.log_eq_of_pow_le_of_lt_pow (by omega) (by omega)
  omega

/-- Days up to 99 print as exactly two characters under the zero padding
of the d directive. -/
theorem twoDigits_length (d : Nat) (h : d ≤ 99) : (twoDigits d).length = 2 := by
  unfold twoDigits
  by_cases hd : d < 10
  · rw [if_pos hd]
    rw [String.length_append]
    have h1 : (Nat.repr d).length = 1 := by
      rw [repr_length_eq]
      have : Nat.log 10 d = 0 := Nat.log_eq_zero_iff.mpr (Or.inl hd)
      omega
    rw [h1]
    decide
  · rw [if_neg hd]
    rw [repr_length_eq]
    have e1 : (10 : Nat) ^ 1 = 10 := by norm_num
    have e2 : (10 : Nat) ^ 2 = 100 := by norm_num
    have hlog : Nat.log 10 d = 1 :=
      Nat.log_eq_of_pow_le_of_lt_pow (by omega) (by omega)
    omega

/-- C9: a successful create-post submission appends exactly one post
whose author is the logged-in user and whose date is the current date
rendered by the strftime format of app.py line 185: the full month name,
a space, the zero-padded two-digit day, a comma, a space and the year,
the year printing as four digits for any current year. -/
theorem add_new_post_spec (today : Date) (form : PostForm) (u : User)
    (s : DBState) (hT : titleTaken s form.title = false) :
    (add_new_post today form u s).state.posts =
      s.posts ++ [{ id := s.nextPostId, author_id := u.id, title := form.title,
                    subtitle := form.subtitle, date := strftime_B_d_Y today,
                    body := form.body, img_url := form.img_url }] ∧
    (add_new_post today form u s).state.users = s.users ∧
    (add_new_post today form u s).state.comments = s.comments ∧
    (add_new_post today form u s).response = .redirectTo "get_all_posts" ∧
    strftime_B_d_Y today =
      monthName today.month ++ " " ++ twoDigits today.day ++ ", " ++
        Nat.repr today.year ∧
    (today.day ≤ 99 → (twoDigits today.day).length = 2) ∧
    (1000 ≤ today.year → today.year ≤ 9999 → (Nat.repr today.year).length = 4) := by
  refine ⟨?_, ?_, ?_, ?_, rfl, ?_, ?_⟩
  · simp [add_new_post, hT]
  · simp [add_new_post, hT]
  · simp [add_new_post, hT]
  · simp [add_new_post, hT]
  · intro h
    exact twoDigits_length today.day h
  · intro h1 h2
    exact repr_length_four today.year h1 h2

/-- Witness for C9: creating the post titled Third on baseState on
October 12, 2026 stores it dated exactly that way, authored by the
admin. -/
theorem add_new_post_spec_witness :
    (add_new_post sampleDate newForm adminUser baseState).state.posts =
      baseState.posts ++
        [{ id := 3, author_id := 1, title := "Third", subtitle := "sub3",
           date := "October 12, 2026", body := "body3", img_url := "url3" }] ∧
    (Nat.repr sampleDate.year).length = 4 ∧
    (twoDigits sampleDate.day).length = 2 := by
  have h := add_new_post_spec sampleDate newForm adminUser baseState (by decide)
  refine ⟨?_, h.2.2.2.2.2.2 (by decide) (by decide), h.2.2.2.2.2.1 (by decide)⟩
  rw [h.1]
  decide

end BlogApp
